import Mathlib

/-!
Puzzle page composition (`routes/hole.go`).

A shallow embedding of the HTTP handler `hole` of `src/routes/hole.go`: the
response stream is an explicit state, a Go `panic` is an explicit outcome that
remembers what had been written when it was raised, and the two `db.QueryRow`
reads go through an abstract store interface with one concrete instance that
evaluates the two SQL statements over a table of solutions.
-/

namespace Routes

/-! ## Data model -/

/-- Value type of the package-level map `holeByID`; the handler reads the string
fields `hole.Name` and `hole.Preamble`. -/
structure Hole where
  Name : String
  Preamble : String
deriving DecidableEq

/-- Element type of the package-level slice `langs`; the handler reads the
string fields `lang.ID` and `lang.Name`. -/
structure Lang where
  ID : String
  Name : String
deriving DecidableEq

/-- The part of `net/url.URL` the handler reads. -/
structure URL where
  Path : String
deriving DecidableEq

/-- The part of `*http.Request` the handler reads (`r.URL.Path`), together with
the header fields that only `printHeader` looks at. -/
structure Request where
  URL : URL
  Header : List (String × String)
deriving DecidableEq

/-- An `http.ResponseWriter`, as the bytes written to it so far. -/
structure ResponseWriter where
  body : String
deriving DecidableEq

/-- The call `w.Write(b)`: the bytes are appended to the response stream. -/
def ResponseWriter.Write (w : ResponseWriter) (b : String) : ResponseWriter :=
  { body := w.body ++ b }

/-- The `err` of `db.QueryRow(...).Scan(&html)` when it is not `nil`: either the
sentinel `sql.ErrNoRows`, or any other error value. -/
inductive SqlError where
  | ErrNoRows
  | other (msg : String)
deriving DecidableEq

/-- The two statements the handler sends to the store. -/
inductive Query where
  /-- `SELECT CONCAT(' data-lang=', lang) FROM solutions
      WHERE user_id = $1 AND hole = $2` -/
  | latestLang
  /-- `SELECT STRING_AGG(CONCAT(' data-', lang, '="',
      REPLACE(code, '"', '&#34;'), '"'), '') FROM solutions
      WHERE user_id = $1 AND hole = $2` -/
  | allCode
deriving DecidableEq

/-- The package-level `db`, seen through the one call the handler makes:
`db.QueryRow(query, userID, holeID).Scan(&html)` yields either an error or the
single column of the first result row, where `none` is SQL `NULL`. -/
structure DB where
  QueryRow : Query → Int → String → Except SqlError (Option String)

/-- The value a Go `panic` was raised with. -/
inductive PanicValue where
  /-- The runtime error of `r.URL.Path[1:]` on an empty path. -/
  | sliceBounds
  /-- The call `panic(err)` after a failed read. -/
  | err (e : SqlError)
deriving DecidableEq

/-- How a call of the handler ends: it returns, or it panics; in both cases `w`
is the response stream at that moment. -/
inductive Outcome where
  | returned (w : ResponseWriter)
  | panicked (w : ResponseWriter) (v : PanicValue)
deriving DecidableEq

/-- The package-level names the handler uses and that are declared in other
files of the package: the two asset paths, the puzzle map, the language slice
and the identity resolver `printHeader(w, r, status)`, which may write to the
response and returns the user's id (`0` for an anonymous caller). -/
structure Globals where
  holeCssPath : String
  holeJsPath : String
  holeByID : String → Option Hole
  langs : List Lang
  printHeader : ResponseWriter → Request → Nat → ResponseWriter × Int

/-! ## The handler -/

/-- The Go expression `s[1:]`: a run-time panic (`none`) on the empty string,
otherwise the string without its first byte.  The router only dispatches paths
that begin with the one-byte character `/`, where dropping the first byte and
dropping the first character agree. -/
def sliceFrom1 (s : String) : Option String :=
  match s.data with
  | [] => none
  | _ :: cs => some ⟨cs⟩

/-- Lines 15-21: the argument of the first `w.Write`. -/
def head (g : Globals) : String :=
  "<link rel=stylesheet href=" ++ g.holeCssPath ++ ">" ++
    "<script async src=" ++ g.holeJsPath ++ "></script><div id=status><div>" ++
    "<h2>Program Arguments</h2><pre id=Arg></pre>" ++
    "<h2>Standard Error</h2><pre id=Err></pre>" ++
    "<h2>Expected Output</h2><pre id=Exp></pre>" ++
    "<h2>Standard Output</h2><pre id=Out></pre>" ++
    "</div></div><main id=hole"

/-- Lines 26-30: the argument of the `w.Write` of the anonymous branch. -/
def loginPrompt : String :=
  "><div id=alert>Please " ++
    "<a href=\"//github.com/login/oauth/authorize?" ++
    "client_id=7f6709819023e9215205&scope=user:email\">" ++
    "login with GitHub</a> in order to save solutions " ++
    "and appear on the leaderboards.</div"

/-- Lines 69-70: the argument of the `w.Write` after the lookup. -/
def body (hole : Hole) : String :=
  "><h1>" ++ hole.Name ++ "</h1><p>" ++ hole.Preamble ++
    "<button>Run</button><div id=tabs>"

/-- Lines 75-76: the argument of the `w.Write` in the loop over `langs`. -/
def tab (lang : Lang) : String :=
  "<a href=#" ++ lang.ID ++ " title=\"" ++
    lang.Name ++ "\">not tried</a>"

/-- The statement that occurs twice, at lines 36-45 and 48-63:
`if err := <read>.Scan(&html); err == nil { w.Write(html) }
 else if err != sql.ErrNoRows { panic(err) }`.
Scanning `NULL` into a `[]byte` leaves it `nil`, and writing it writes nothing.
The result is the stream afterwards, or the stream and the error at the panic. -/
def scanWrite (read : Except SqlError (Option String)) (w : ResponseWriter) :
    Except (ResponseWriter × SqlError) ResponseWriter :=
  match read with
  | .ok html => .ok (w.Write (html.getD ""))
  | .error e => if e ≠ SqlError.ErrNoRows then .error (w, e) else .ok w

/-- Lines 66-80: what the handler does after the authentication gate. -/
def finish (g : Globals) (holeID : String) (w : ResponseWriter) : ResponseWriter :=
  let hole := (g.holeByID holeID).getD { Name := "", Preamble := "" }
  let w := w.Write (body hole)
  let w := g.langs.foldl (fun w lang => w.Write (tab lang)) w
  w.Write "</div>"

/-- The handler `hole(w, r, _)`. -/
def hole (g : Globals) (db : DB) (w : ResponseWriter) (r : Request) : Outcome :=
  match sliceFrom1 r.URL.Path with
  | none => .panicked w .sliceBounds
  | some holeID =>
    let (w, userID) := g.printHeader w r 200
    let w := w.Write (head g)
    if userID = 0 then
      let w := w.Write loginPrompt
      .returned (finish g holeID w)
    else
      match scanWrite (db.QueryRow .latestLang userID holeID) w with
      | .error (w, e) => .panicked w (.err e)
      | .ok w =>
        match scanWrite (db.QueryRow .allCode userID holeID) w with
        | .error (w, e) => .panicked w (.err e)
        | .ok w => .returned (finish g holeID w)

/-! ## The store: the two SQL statements over a table -/

/-- Modelled from the spec: the schema of the table `solutions`, whose
declaration is not among the sources.  The columns `user_id`, `hole`, `lang` and
`code` are named by the handler's SQL; `success` and `timestamp` are the two
further columns the specification lists.  The table is keyed by
`(user_id, hole, lang)`. -/
structure Solution where
  user_id : Int
  hole : String
  lang : String
  code : String
  success : Bool
  timestamp : Nat
deriving DecidableEq

/-- SQL `CONCAT` of non-`NULL` text arguments. -/
def CONCAT (args : List String) : String :=
  args.foldl (fun acc a => acc ++ a) ""

/-- SQL `REPLACE(s, from, to)` (here `frm`, `rep`) for a pattern of one character, which is
how the handler's statement calls it: every occurrence is replaced. -/
def REPLACE (s : String) (frm : Char) (rep : String) : String :=
  ⟨s.data.flatMap (fun c => if c = frm then rep.data else [c])⟩

/-- SQL aggregate `STRING_AGG(value, delimiter)` over the values of the selected
rows, in the order in which the scan yields them: `NULL` when no row is
selected. -/
def STRING_AGG (values : List String) (delimiter : String) : Option String :=
  match values with
  | [] => none
  | v :: vs => some (vs.foldl (fun acc x => acc ++ delimiter ++ x) v)

/-- The clause `FROM solutions WHERE user_id = $1 AND hole = $2`; the table is
listed in the order in which the scan yields its rows. -/
def fromWhere (solutions : List Solution) (userID : Int) (holeID : String) :
    List Solution :=
  solutions.filter (fun s => s.user_id = userID ∧ s.hole = holeID)

/-- A store that answers both statements from the table `solutions` and never
fails.  `QueryRow(...).Scan` takes the first row of the result and reports
`sql.ErrNoRows` when there is none; an aggregate without `GROUP BY` always
yields one row. -/
def postgres (solutions : List Solution) : DB where
  QueryRow q userID holeID :=
    match q with
    | .latestLang =>
      match (fromWhere solutions userID holeID).map
          (fun s => CONCAT [" data-lang=", s.lang]) with
      | [] => .error .ErrNoRows
      | v :: _ => .ok (some v)
    | .allCode =>
      .ok (STRING_AGG ((fromWhere solutions userID holeID).map
        (fun s => CONCAT [" data-", s.lang, "=\"", REPLACE s.code '"' "&#34;", "\""])) "")

/-- A store on which every read fails with an error other than `sql.ErrNoRows`. -/
def unreachable (msg : String) : DB where
  QueryRow _ _ _ := .error (.other msg)

/-! ## A small configuration for concrete runs -/

/-- A configuration with one puzzle and two languages, and an identity resolver
that writes nothing and reports `userID`. -/
def exampleGlobals (userID : Int) : Globals where
  holeCssPath := "/hole.css"
  holeJsPath := "/hole.js"
  holeByID id :=
    if id = "fizzbuzz" then
      some { Name := "FizzBuzz", Preamble := "Print the numbers from 1 to 100." }
    else none
  langs := [{ ID := "go", Name := "Go" }, { ID := "perl", Name := "Perl" }]
  printHeader w _ _ := (w, userID)

/-- The request `GET /fizzbuzz`. -/
def fizzbuzzRequest : Request :=
  { URL := { Path := "/fizzbuzz" }, Header := [] }

/-- The response stream before anything is written. -/
def emptyResponse : ResponseWriter :=
  { body := "" }

/-- The request `GET /nope`, for a puzzle that is not configured. -/
def unknownRequest : Request :=
  { URL := { Path := "/nope" }, Header := [] }

/-- A table with two solutions of user 1 for `fizzbuzz` (a failed one in `perl`,
then a more recent successful one in `go`), one of user 1 for another puzzle and
one of user 2. -/
def exampleSolutions : List Solution :=
  [{ user_id := 1, hole := "fizzbuzz", lang := "perl", code := "die \"x\"",
     success := false, timestamp := 5 },
   { user_id := 1, hole := "fizzbuzz", lang := "go", code := "ok",
     success := true, timestamp := 9 },
   { user_id := 1, hole := "pi", lang := "go", code := "3",
     success := true, timestamp := 3 },
   { user_id := 2, hole := "fizzbuzz", lang := "go", code := "no",
     success := true, timestamp := 7 }]

/-- A store whose first read reports `sql.ErrNoRows` and whose second read
fails with another error. -/
def secondReadFails : DB where
  QueryRow q _ _ :=
    match q with
    | .latestLang => .error .ErrNoRows
    | .allCode => .error (.other "connection reset")

/-- The page for an anonymous request for `fizzbuzz` in the example
configuration. -/
def exampleAnonymousPage : ResponseWriter :=
  ⟨head (exampleGlobals 0) ++ loginPrompt
    ++ "><h1>FizzBuzz</h1><p>Print the numbers from 1 to 100."
    ++ "<button>Run</button><div id=tabs>"
    ++ "<a href=#go title=\"Go\">not tried</a>"
    ++ "<a href=#perl title=\"Perl\">not tried</a></div>"⟩

/-- The page for user 1 and `fizzbuzz` over `exampleSolutions`. -/
def exampleUserPage : ResponseWriter :=
  ⟨head (exampleGlobals 1) ++ " data-lang=perl"
    ++ " data-perl=\"die &#34;x&#34;\" data-go=\"ok\""
    ++ "><h1>FizzBuzz</h1><p>Print the numbers from 1 to 100."
    ++ "<button>Run</button><div id=tabs>"
    ++ "<a href=#go title=\"Go\">not tried</a>"
    ++ "<a href=#perl title=\"Perl\">not tried</a></div>"⟩

/-- The page for an anonymous request for the unknown puzzle `nope`. -/
def exampleUnknownPage : ResponseWriter :=
  ⟨head (exampleGlobals 0) ++ loginPrompt
    ++ "><h1></h1><p><button>Run</button><div id=tabs>"
    ++ "<a href=#go title=\"Go\">not tried</a>"
    ++ "<a href=#perl title=\"Perl\">not tried</a></div>"⟩

/-! ## Names used in the statements -/

/-- The roster as one string: one `tab` per language of `langs`, in the order
of `langs`. -/
def roster (g : Globals) : String :=
  String.join (g.langs.map tab)

/-- The puzzle value the lookup `holeByID[holeID]` yields: the stored value, or
the zero value of the struct for a key that is not in the map. -/
def lookup (g : Globals) (holeID : String) : Hole :=
  (g.holeByID holeID).getD { Name := "", Preamble := "" }

/-- The bytes one read contributes to the page when it is not fatal: the scanned
value, and nothing for `NULL` and for `sql.ErrNoRows`. -/
def fragment (read : Except SqlError (Option String)) : String :=
  match read with
  | .ok html => html.getD ""
  | .error _ => ""

/-- A read is fatal when it reports an error other than `sql.ErrNoRows`. -/
def fatal (read : Except SqlError (Option String)) : Prop :=
  ∃ msg, read = .error (.other msg)

instance (read : Except SqlError (Option String)) : Decidable (fatal read) :=
  match read with
  | .ok _ => isFalse (by rintro ⟨m, h⟩; cases h)
  | .error .ErrNoRows => isFalse (by rintro ⟨m, h⟩; cases h)
  | .error (.other m) => isTrue ⟨m, rfl⟩

/-- The double-quote escaping in the words of the specification: a double quote
becomes `&#34;`, every other character stays. -/
def esc : List Char → List Char
  | [] => []
  | c :: cs => if c = '"' then '&' :: '#' :: '3' :: '4' :: ';' :: esc cs else c :: esc cs

/-- One attribute of the second hydration fragment, for one row. -/
def codeAttr (s : Solution) : String :=
  " data-" ++ s.lang ++ "=\"" ++ String.mk (esc s.code.data) ++ "\""

/-! ## Auxiliary lemmas -/

theorem sliceFrom1_rooted (holeID : String) : sliceFrom1 ("/" ++ holeID) = some holeID := by
  simp [sliceFrom1, String.data_append]

theorem foldl_Write_body (ls : List Lang) (w : ResponseWriter) :
    (ls.foldl (fun w lang => w.Write (tab lang)) w).body
      = w.body ++ String.join (ls.map tab) := by
  induction ls generalizing w with
  | nil => simp [String.join]
  | cons l ls ih =>
    rw [List.foldl_cons, ih]
    apply String.ext
    simp [ResponseWriter.Write, String.data_append, String.data_join]

theorem finish_body (g : Globals) (holeID : String) (w : ResponseWriter) :
    (finish g holeID w).body
      = w.body ++ body (lookup g holeID) ++ roster g ++ "</div>" := by
  show ((g.langs.foldl (fun w lang => w.Write (tab lang))
    (w.Write (body (lookup g holeID)))).body ++ "</div>") = _
  rw [foldl_Write_body]
  rfl

theorem CONCAT_eq (args : List String) : CONCAT args = String.join args := rfl

theorem REPLACE_quote (code : String) :
    REPLACE code '"' "&#34;" = String.mk (esc code.data) := by
  unfold REPLACE
  congr 1
  induction code.data with
  | nil => rfl
  | cons c cs ih =>
    by_cases h : c = '"'
    · subst h; simp [esc, List.flatMap_cons, ih]
    · simp [esc, List.flatMap_cons, ih, h]

theorem STRING_AGG_empty_delim (values : List String) :
    (STRING_AGG values "").getD "" = String.join values := by
  cases values with
  | nil => rfl
  | cons v vs =>
    simp only [STRING_AGG, Option.getD_some]
    have key : ∀ (l : List String) (a : String),
        l.foldl (fun acc x => acc ++ "" ++ x) a = a ++ String.join l := by
      intro l
      induction l with
      | nil => intro a; apply String.ext; simp [String.data_append, String.data_join]
      | cons x xs ih =>
        intro a
        rw [List.foldl_cons, ih]
        apply String.ext
        simp [String.data_append, String.data_join]
    rw [key]
    apply String.ext
    simp [String.data_append, String.data_join]

theorem scanWrite_fatal (msg : String) (w : ResponseWriter) :
    scanWrite (.error (.other msg)) w = .error (w, .other msg) := by
  simp [scanWrite]

theorem scanWrite_ok (read : Except SqlError (Option String)) (w : ResponseWriter)
    (h : ¬ fatal read) : scanWrite read w = .ok ⟨w.body ++ fragment read⟩ := by
  rcases read with e | html
  · cases e with
    | ErrNoRows =>
      cases w
      simp [scanWrite, fragment]
    | other msg => exact absurd ⟨msg, rfl⟩ h
  · rfl

theorem returned_body_ext (w : ResponseWriter) (s : String) (h : w.body = s) :
    Outcome.returned w = Outcome.returned ⟨s⟩ := by
  cases w
  simp at h
  simp [h]

/-- The anonymous branch, in closed form. -/
theorem hole_anonymous (g : Globals) (db : DB) (w w1 : ResponseWriter) (r : Request)
    (holeID : String) (hpath : sliceFrom1 r.URL.Path = some holeID)
    (hid : g.printHeader w r 200 = (w1, 0)) :
    hole g db w r = .returned ⟨w1.body ++ head g ++ loginPrompt
      ++ body (lookup g holeID) ++ roster g ++ "</div>"⟩ := by
  unfold hole
  rw [hpath]
  simp only [hid, if_true]
  apply returned_body_ext
  rw [finish_body]
  rfl

/-- The authenticated branch when the first read is fatal. -/
theorem hole_first_fatal (g : Globals) (db : DB) (w w1 : ResponseWriter) (r : Request)
    (holeID : String) (userID : Int) (msg : String) (hpath : sliceFrom1 r.URL.Path = some holeID)
    (hid : g.printHeader w r 200 = (w1, userID)) (hauth : userID ≠ 0)
    (h1 : db.QueryRow .latestLang userID holeID = .error (.other msg)) :
    hole g db w r = .panicked ⟨w1.body ++ head g⟩ (.err (.other msg)) := by
  unfold hole
  rw [hpath]
  simp only [hid, if_neg hauth, h1, scanWrite_fatal]
  rfl

/-- The authenticated branch when the first read is not fatal and the second is. -/
theorem hole_second_fatal (g : Globals) (db : DB) (w w1 : ResponseWriter) (r : Request)
    (holeID : String) (userID : Int) (msg : String) (hpath : sliceFrom1 r.URL.Path = some holeID)
    (hid : g.printHeader w r 200 = (w1, userID)) (hauth : userID ≠ 0)
    (h1 : ¬ fatal (db.QueryRow .latestLang userID holeID))
    (h2 : db.QueryRow .allCode userID holeID = .error (.other msg)) :
    hole g db w r = .panicked ⟨w1.body ++ head g
      ++ fragment (db.QueryRow .latestLang userID holeID)⟩ (.err (.other msg)) := by
  unfold hole
  rw [hpath]
  simp only [hid, if_neg hauth, h2, scanWrite_ok _ _ h1, scanWrite_fatal]
  rfl

/-- The authenticated branch when neither read is fatal. -/
theorem hole_authenticated (g : Globals) (db : DB) (w w1 : ResponseWriter) (r : Request)
    (holeID : String) (userID : Int) (hpath : sliceFrom1 r.URL.Path = some holeID)
    (hid : g.printHeader w r 200 = (w1, userID)) (hauth : userID ≠ 0)
    (h1 : ¬ fatal (db.QueryRow .latestLang userID holeID))
    (h2 : ¬ fatal (db.QueryRow .allCode userID holeID)) :
    hole g db w r = .returned ⟨w1.body ++ head g
      ++ fragment (db.QueryRow .latestLang userID holeID)
      ++ fragment (db.QueryRow .allCode userID holeID)
      ++ body (lookup g holeID) ++ roster g ++ "</div>"⟩ := by
  unfold hole
  rw [hpath]
  simp only [hid, if_neg hauth, scanWrite_ok _ _ h1, scanWrite_ok _ _ h2]
  apply returned_body_ext
  rw [finish_body]
  rfl

theorem sliceFrom1_of_path (r : Request) (holeID : String)
    (hpath : r.URL.Path = "/" ++ holeID) : sliceFrom1 r.URL.Path = some holeID := by
  rw [hpath, sliceFrom1_rooted]

theorem postgres_not_fatal (t : List Solution) (q : Query) (userID : Int)
    (holeID : String) : ¬ fatal ((postgres t).QueryRow q userID holeID) := by
  rintro ⟨msg, h⟩
  cases q with
  | latestLang =>
    simp only [postgres] at h
    split at h <;> cases h
  | allCode => simp [postgres] at h

theorem postgres_latestLang_fragment (t : List Solution) (userID : Int) (holeID : String) :
    fragment ((postgres t).QueryRow .latestLang userID holeID)
      = match fromWhere t userID holeID with
        | [] => ""
        | s :: _ => " data-lang=" ++ s.lang := by
  simp only [postgres]
  cases fromWhere t userID holeID with
  | nil => rfl
  | cons s rest =>
    simp only [List.map_cons, fragment, Option.getD_some, CONCAT_eq]
    apply String.ext
    simp [String.data_append, String.data_join]

theorem postgres_allCode_fragment (t : List Solution) (userID : Int) (holeID : String) :
    fragment ((postgres t).QueryRow .allCode userID holeID)
      = String.join ((fromWhere t userID holeID).map codeAttr) := by
  simp only [postgres, fragment, STRING_AGG_empty_delim]
  congr 1
  apply List.map_congr_left
  intro s _
  rw [CONCAT_eq, REPLACE_quote]
  apply String.ext
  simp [codeAttr, String.data_append, String.data_join]

theorem esc_no_quote (cs : List Char) : '"' ∉ esc cs := by
  induction cs with
  | nil => simp [esc]
  | cons c cs ih =>
    by_cases h : c = '"'
    · simp [esc, h, ih]
    · simp only [esc, h, if_false, List.mem_cons, not_or]
      exact ⟨fun e => h e.symm, ih⟩

/-! ## The claims -/

/-- C1 (the code departs from the claim): the first read has no condition on
`success` and no ordering by `timestamp`.  For user 1 and puzzle `fizzbuzz`,
when the only stored solution is a failed one in `perl`, the handler still
writes ` data-lang=perl`; and when a failed `perl` solution is followed by a
more recent successful `go` solution, it writes ` data-lang=perl` as well. -/
theorem hole_latestLang_ignores_success :
    hole (exampleGlobals 1)
        (postgres [{ user_id := 1, hole := "fizzbuzz", lang := "perl", code := "die",
                     success := false, timestamp := 5 }])
        emptyResponse fizzbuzzRequest
      = .returned ⟨head (exampleGlobals 1) ++ " data-lang=perl" ++ " data-perl=\"die\""
          ++ "><h1>FizzBuzz</h1><p>Print the numbers from 1 to 100."
          ++ "<button>Run</button><div id=tabs>"
          ++ "<a href=#go title=\"Go\">not tried</a>"
          ++ "<a href=#perl title=\"Perl\">not tried</a></div>"⟩
    ∧ hole (exampleGlobals 1)
        (postgres [{ user_id := 1, hole := "fizzbuzz", lang := "perl", code := "die",
                     success := false, timestamp := 5 },
                   { user_id := 1, hole := "fizzbuzz", lang := "go", code := "ok",
                     success := true, timestamp := 9 }])
        emptyResponse fizzbuzzRequest
      = .returned ⟨head (exampleGlobals 1) ++ " data-lang=perl"
          ++ " data-perl=\"die\" data-go=\"ok\""
          ++ "><h1>FizzBuzz</h1><p>Print the numbers from 1 to 100."
          ++ "<button>Run</button><div id=tabs>"
          ++ "<a href=#go title=\"Go\">not tried</a>"
          ++ "<a href=#perl title=\"Perl\">not tried</a></div>"⟩ := by
  set_option maxRecDepth 100000 in
  constructor <;> rfl

/-- C2: for an authenticated user the handler, run on a table of solutions,
returns, and the second fragment of its output is the concatenation, over
exactly the rows of that user and puzzle in scan order, of
` data-LANG="ESCAPED"`, where the escaping turns each double quote into `&#34;`
and leaves every other character as it is.  No escaped value contains a double
quote, and when the table respects its key `(user_id, hole, lang)` every language
of a contributing row occurs on exactly one contributing row. -/
theorem hole_codeFragment (g : Globals) (t : List Solution) (w w1 : ResponseWriter)
    (r : Request) (holeID : String) (userID : Int)
    (hpath : r.URL.Path = "/" ++ holeID)
    (hid : g.printHeader w r 200 = (w1, userID)) (hauth : userID ≠ 0) :
    hole g (postgres t) w r
        = .returned ⟨w1.body ++ head g
            ++ fragment ((postgres t).QueryRow .latestLang userID holeID)
            ++ String.join ((t.filter (fun s => s.user_id = userID ∧ s.hole = holeID)).map
                (fun s => " data-" ++ s.lang ++ "=\"" ++ String.mk (esc s.code.data) ++ "\""))
            ++ body (lookup g holeID) ++ roster g ++ "</div>"⟩
      ∧ (∀ code : String, '"' ∉ esc code.data)
      ∧ (∀ code : String, '"' ∉ code.data → esc code.data = code.data)
      ∧ ((t.map (fun s => (s.user_id, s.hole, s.lang))).Nodup →
          ∀ s ∈ t.filter (fun s => s.user_id = userID ∧ s.hole = holeID),
            ((t.filter (fun s => s.user_id = userID ∧ s.hole = holeID)).map
              (fun s => s.lang)).count s.lang = 1) := by
  refine ⟨?_, fun code => esc_no_quote code.data, ?_, ?_⟩
  · rw [hole_authenticated g (postgres t) w w1 r holeID userID
      (sliceFrom1_of_path r holeID hpath) hid hauth
      (postgres_not_fatal t _ userID holeID) (postgres_not_fatal t _ userID holeID),
      postgres_allCode_fragment]
    rfl
  · intro code
    induction code.data with
    | nil => intro _; rfl
    | cons c cs ih =>
      intro h
      simp only [List.mem_cons, not_or] at h
      have hc : c ≠ '"' := fun e => h.1 e.symm
      simp [esc, hc, ih h.2]
  · intro hkey s hs
    apply List.count_eq_one_of_mem
    · have h1 : (t.filter (fun s => s.user_id = userID ∧ s.hole = holeID)).map
          (fun s => (s.user_id, s.hole, s.lang)) |>.Nodup :=
        (List.Sublist.map _ (List.filter_sublist t)).nodup hkey
      rw [List.nodup_map_iff_inj_on (List.Nodup.of_map _ h1)]
      intro a ha b hb hab
      have ha2 := (List.mem_filter.mp ha).2
      have hb2 := (List.mem_filter.mp hb).2
      simp only [decide_eq_true_eq] at ha2 hb2
      have hk : (a.user_id, a.hole, a.lang) = (b.user_id, b.hole, b.lang) := by
        rw [ha2.1, ha2.2, hb2.1, hb2.2, hab]
      exact (List.nodup_map_iff_inj_on (List.Nodup.of_map _ h1)).mp h1 a ha b hb hk
    · exact List.mem_map_of_mem _ hs

theorem head_ends_with_main (g : Globals) : ∃ pre, head g = pre ++ "<main id=hole" := by
  refine ⟨"<link rel=stylesheet href=" ++ g.holeCssPath ++ ">" ++
    "<script async src=" ++ g.holeJsPath ++ "></script><div id=status><div>" ++
    "<h2>Program Arguments</h2><pre id=Arg></pre>" ++
    "<h2>Standard Error</h2><pre id=Err></pre>" ++
    "<h2>Expected Output</h2><pre id=Exp></pre>" ++
    "<h2>Standard Output</h2><pre id=Out></pre>" ++ "</div></div>", ?_⟩
  have e : "</div></div><main id=hole" = "</div></div>" ++ "<main id=hole" := by decide
  unfold head
  rw [e]
  simp only [String.append_assoc]

theorem fromWhere_eq_nil (t : List Solution) (userID : Int) (holeID : String)
    (hnone : ∀ s ∈ t, ¬ (s.user_id = userID ∧ s.hole = holeID)) :
    fromWhere t userID holeID = [] := by
  apply List.filter_eq_nil_iff.mpr
  intro s hs
  simpa using hnone s hs

/-- C3: for an anonymous caller the result of the handler does not depend on the
store (any two stores, failing or not, give the same result): it returns, and
its output is the head, whose last bytes are `<main id=hole`, immediately
followed by `>` and the login prompt with the fixed authorization link, then the
body, the roster and the closing tag; nothing stands between `<main id=hole` and
the `>` that ends the tag. -/
theorem hole_anonymous_ignores_store (g : Globals) (db1 db2 : DB) (w w1 : ResponseWriter)
    (r : Request) (holeID : String) (hpath : r.URL.Path = "/" ++ holeID)
    (hid : g.printHeader w r 200 = (w1, 0)) :
    hole g db1 w r = hole g db2 w r
      ∧ hole g db1 w r
        = .returned ⟨w1.body ++ head g ++ "><div id=alert>Please <a href=\""
            ++ "//github.com/login/oauth/authorize?client_id=7f6709819023e9215205&scope=user:email"
            ++ "\">login with GitHub</a> in order to save solutions "
            ++ "and appear on the leaderboards.</div"
            ++ body (lookup g holeID) ++ roster g ++ "</div>"⟩
      ∧ (∃ pre, head g = pre ++ "<main id=hole") := by
  have hs := sliceFrom1_of_path r holeID hpath
  refine ⟨?_, ?_, head_ends_with_main g⟩
  · rw [hole_anonymous g db1 w w1 r holeID hs hid, hole_anonymous g db2 w w1 r holeID hs hid]
  · rw [hole_anonymous g db1 w w1 r holeID hs hid]
    have e : loginPrompt = "><div id=alert>Please <a href=\""
        ++ "//github.com/login/oauth/authorize?client_id=7f6709819023e9215205&scope=user:email"
        ++ "\">login with GitHub</a> in order to save solutions "
        ++ "and appear on the leaderboards.</div" := by
      set_option maxRecDepth 100000 in
      decide
    rw [e]
    simp only [String.append_assoc]

/-- C4: for an authenticated caller with no stored solution for the puzzle, both
reads contribute nothing and the handler returns; its output is the head, whose
last bytes are `<main id=hole`, immediately followed by `><h1>`, the name, the
preamble, the run button, the roster and the closing tag. -/
theorem hole_no_solutions (g : Globals) (t : List Solution) (w w1 : ResponseWriter)
    (r : Request) (holeID : String) (userID : Int)
    (hpath : r.URL.Path = "/" ++ holeID)
    (hid : g.printHeader w r 200 = (w1, userID)) (hauth : userID ≠ 0)
    (hnone : ∀ s ∈ t, ¬ (s.user_id = userID ∧ s.hole = holeID)) :
    fragment ((postgres t).QueryRow .latestLang userID holeID) = ""
      ∧ fragment ((postgres t).QueryRow .allCode userID holeID) = ""
      ∧ hole g (postgres t) w r
        = .returned ⟨w1.body ++ head g ++ "><h1>" ++ (lookup g holeID).Name ++ "</h1><p>"
            ++ (lookup g holeID).Preamble ++ "<button>Run</button><div id=tabs>"
            ++ roster g ++ "</div>"⟩
      ∧ (∃ pre, head g = pre ++ "<main id=hole") := by
  have hs := sliceFrom1_of_path r holeID hpath
  have e1 : fragment ((postgres t).QueryRow .latestLang userID holeID) = "" := by
    rw [postgres_latestLang_fragment, fromWhere_eq_nil t userID holeID hnone]
  have e2 : fragment ((postgres t).QueryRow .allCode userID holeID) = "" := by
    rw [postgres_allCode_fragment, fromWhere_eq_nil t userID holeID hnone]
    rfl
  refine ⟨e1, e2, ?_, head_ends_with_main g⟩
  rw [hole_authenticated g (postgres t) w w1 r holeID userID hs hid hauth
    (postgres_not_fatal t _ userID holeID) (postgres_not_fatal t _ userID holeID), e1, e2]
  apply congrArg Outcome.returned
  apply congrArg ResponseWriter.mk
  apply String.ext
  simp only [String.data_append, List.append_assoc, body, List.append_nil]

theorem hole_returned_not_fatal (g : Globals) (db : DB) (w w1 out : ResponseWriter)
    (r : Request) (holeID : String) (userID : Int)
    (hs : sliceFrom1 r.URL.Path = some holeID)
    (hid : g.printHeader w r 200 = (w1, userID)) (hauth : userID ≠ 0)
    (hret : hole g db w r = .returned out) :
    ¬ fatal (db.QueryRow .latestLang userID holeID)
      ∧ ¬ fatal (db.QueryRow .allCode userID holeID) := by
  by_cases h1 : fatal (db.QueryRow .latestLang userID holeID)
  · obtain ⟨msg, hm⟩ := h1
    rw [hole_first_fatal g db w w1 r holeID userID msg hs hid hauth hm] at hret
    cases hret
  · refine ⟨h1, ?_⟩
    rintro ⟨msg, hm⟩
    rw [hole_second_fatal g db w w1 r holeID userID msg hs hid hauth h1 hm] at hret
    cases hret

theorem hole_panicked_iff (g : Globals) (db : DB) (w w1 : ResponseWriter)
    (r : Request) (holeID : String) (userID : Int)
    (hs : sliceFrom1 r.URL.Path = some holeID)
    (hid : g.printHeader w r 200 = (w1, userID)) :
    (∃ wr v, hole g db w r = .panicked wr v)
      ↔ userID ≠ 0 ∧ (fatal (db.QueryRow .latestLang userID holeID)
          ∨ fatal (db.QueryRow .allCode userID holeID)) := by
  constructor
  · rintro ⟨wr, v, hp⟩
    by_cases hu : userID = 0
    · subst hu
      rw [hole_anonymous g db w w1 r holeID hs hid] at hp
      cases hp
    · refine ⟨hu, ?_⟩
      by_contra hn
      rw [not_or] at hn
      rw [hole_authenticated g db w w1 r holeID userID hs hid hu hn.1 hn.2] at hp
      cases hp
  · rintro ⟨hu, hf⟩
    by_cases h1 : fatal (db.QueryRow .latestLang userID holeID)
    · obtain ⟨msg, hm⟩ := h1
      exact ⟨_, _, hole_first_fatal g db w w1 r holeID userID msg hs hid hu hm⟩
    · obtain ⟨msg, hm⟩ := hf.resolve_left h1
      exact ⟨_, _, hole_second_fatal g db w w1 r holeID userID msg hs hid hu h1 hm⟩

theorem hole_returned_finish (g : Globals) (db : DB) (w out : ResponseWriter) (r : Request)
    (hret : hole g db w r = .returned out) :
    ∃ holeID w2, out = finish g holeID w2 := by
  unfold hole at hret
  split at hret
  · cases hret
  · rename_i holeID _
    simp only at hret
    split at hret
    · exact ⟨holeID, _, (Outcome.returned.inj hret).symm⟩
    · split at hret
      · cases hret
      · split at hret
        · cases hret
        · exact ⟨holeID, _, (Outcome.returned.inj hret).symm⟩

theorem body_split (h : Hole) :
    body h = "><h1>" ++ h.Name ++ "</h1><p>" ++ h.Preamble ++ "<button>Run</button>"
      ++ "<div id=tabs>" := by
  have e : "<button>Run</button><div id=tabs>" = "<button>Run</button>" ++ "<div id=tabs>" := by
    decide
  unfold body
  rw [e]
  simp only [String.append_assoc]

/-- C5 (the claim as stated fails): for the configured puzzle `fizzbuzz` and user 1
whose only solution is the successful `go` solution with the eleven characters
`x := "a\"b"`, the handler returns and its output does not contain the attribute
`data-go="x := &#34;a&#34;b&#34;"`. -/
theorem hole_fizzbuzz_attribute_differs :
    ∃ out, hole (exampleGlobals 1)
        (postgres [{ user_id := 1, hole := "fizzbuzz", lang := "go",
                     code := "x := \"a\\\"b\"", success := true, timestamp := 1 }])
        emptyResponse fizzbuzzRequest = .returned out
      ∧ ¬ ("data-go=\"x := &#34;a&#34;b&#34;\"".data <:+: out.body.data) := by
  refine ⟨⟨head (exampleGlobals 1) ++ " data-lang=go"
      ++ " data-go=\"x := &#34;a\\&#34;b&#34;\""
      ++ "><h1>FizzBuzz</h1><p>Print the numbers from 1 to 100."
      ++ "<button>Run</button><div id=tabs>"
      ++ "<a href=#go title=\"Go\">not tried</a>"
      ++ "<a href=#perl title=\"Perl\">not tried</a></div>"⟩, ?_, ?_⟩
  · set_option maxRecDepth 100000 in
    rfl
  · set_option maxRecDepth 100000 in
    decide

/-- C5 (amended): with puzzle `fizzbuzz` configured with name `FizzBuzz` and an
authenticated user whose only solution for it is a successful `go` solution,
the handler returns, and its output has, between the head and
`><h1>FizzBuzz</h1>`, the attribute ` data-lang=go` (unquoted) followed by the
attribute ` data-go="..."` holding the code with each double quote as `&#34;`
and every other character, a backslash included, unchanged: for the code
`x := "a\"b"` that is `x := &#34;a\&#34;b&#34;`, and the value
`x := &#34;a&#34;b&#34;` is what the code `x := "a"b"` gives. -/
theorem hole_fizzbuzz_example (g : Globals) (w w1 : ResponseWriter) (r : Request)
    (userID : Int) (preamble : String) (ts : Nat)
    (hpath : r.URL.Path = "/fizzbuzz")
    (hid : g.printHeader w r 200 = (w1, userID)) (hauth : userID ≠ 0)
    (hcfg : g.holeByID "fizzbuzz" = some (Hole.mk "FizzBuzz" preamble)) :
    hole g (postgres [{ user_id := userID, hole := "fizzbuzz", lang := "go",
                        code := "x := \"a\\\"b\"", success := true, timestamp := ts }]) w r
        = .returned ⟨w1.body ++ head g ++ " data-lang=go"
            ++ " data-go=\"x := &#34;a\\&#34;b&#34;\""
            ++ "><h1>FizzBuzz</h1>" ++ "<p>" ++ preamble
            ++ "<button>Run</button><div id=tabs>" ++ roster g ++ "</div>"⟩
      ∧ hole g (postgres [{ user_id := userID, hole := "fizzbuzz", lang := "go",
                            code := "x := \"a\"b\"", success := true, timestamp := ts }]) w r
        = .returned ⟨w1.body ++ head g ++ " data-lang=go"
            ++ " data-go=\"x := &#34;a&#34;b&#34;\""
            ++ "><h1>FizzBuzz</h1>" ++ "<p>" ++ preamble
            ++ "<button>Run</button><div id=tabs>" ++ roster g ++ "</div>"⟩ := by
  have hp : r.URL.Path = "/" ++ "fizzbuzz" := by rw [hpath]; decide
  have hs := sliceFrom1_of_path r "fizzbuzz" hp
  have hl : lookup g "fizzbuzz" = (Hole.mk "FizzBuzz" preamble) := by
    simp [lookup, hcfg]
  have hb : body (Hole.mk "FizzBuzz" preamble)
      = "><h1>FizzBuzz</h1>" ++ "<p>" ++ preamble ++ "<button>Run</button><div id=tabs>" := by
    apply String.ext
    simp [body, String.data_append]
  constructor
  · rw [hole_authenticated g _ w w1 r "fizzbuzz" userID hs hid hauth
      (postgres_not_fatal _ _ userID "fizzbuzz") (postgres_not_fatal _ _ userID "fizzbuzz"),
      postgres_latestLang_fragment, postgres_allCode_fragment, hl, hb]
    apply congrArg Outcome.returned
    apply congrArg ResponseWriter.mk
    simp only [fromWhere, List.filter, decide_True, and_self, List.map, String.append_assoc]
    congr 2
  · rw [hole_authenticated g _ w w1 r "fizzbuzz" userID hs hid hauth
      (postgres_not_fatal _ _ userID "fizzbuzz") (postgres_not_fatal _ _ userID "fizzbuzz"),
      postgres_latestLang_fragment, postgres_allCode_fragment, hl, hb]
    apply congrArg Outcome.returned
    apply congrArg ResponseWriter.mk
    simp only [fromWhere, List.filter, decide_True, and_self, List.map, String.append_assoc]
    congr 2

/-- C6 (the claim as stated fails): for user 1 and a store on which every read
fails, the handler panics with the store's error, and at that moment the
response stream, empty before the call, already holds the head. -/
theorem head_written_before_store_failure :
    hole (exampleGlobals 1) (unreachable "connection refused") emptyResponse fizzbuzzRequest
        = .panicked ⟨head (exampleGlobals 1)⟩ (.err (.other "connection refused"))
      ∧ emptyResponse.body = ""
      ∧ head (exampleGlobals 1) ≠ "" := by
  refine ⟨?_, rfl, ?_⟩
  · set_option maxRecDepth 100000 in
    rfl
  · set_option maxRecDepth 100000 in
    decide

/-- C6 (amended): on a retrieval failure other than `sql.ErrNoRows` in the
authenticated branch the handler panics with that error and writes nothing
after the failing read (no body, no roster, no closing tag); what it wrote
before stays in the response stream: the head when the first read fails, the
head and the first fragment when the second read fails. -/
theorem hole_store_failure (g : Globals) (db : DB) (w w1 : ResponseWriter)
    (r : Request) (holeID : String) (userID : Int)
    (hpath : r.URL.Path = "/" ++ holeID)
    (hid : g.printHeader w r 200 = (w1, userID)) (hauth : userID ≠ 0) :
    (∀ msg, db.QueryRow .latestLang userID holeID = .error (.other msg) →
        hole g db w r = .panicked ⟨w1.body ++ head g⟩ (.err (.other msg)))
      ∧ (¬ fatal (db.QueryRow .latestLang userID holeID) →
          ∀ msg, db.QueryRow .allCode userID holeID = .error (.other msg) →
            hole g db w r
              = .panicked ⟨w1.body ++ head g
                  ++ fragment (db.QueryRow .latestLang userID holeID)⟩ (.err (.other msg))) := by
  have hs := sliceFrom1_of_path r holeID hpath
  exact ⟨fun msg hm => hole_first_fatal g db w w1 r holeID userID msg hs hid hauth hm,
    fun h1 msg hm => hole_second_fatal g db w w1 r holeID userID msg hs hid hauth h1 hm⟩

/-- C7: the handler panics exactly when the caller is authenticated and one of
the two reads reports an error other than `sql.ErrNoRows`; when the first read
fails in that way the second read has no influence on the result; and a read
that reports `sql.ErrNoRows` is no failure: the handler goes on and that read
contributes no byte to the output. -/
theorem hole_panics_iff (g : Globals) (db : DB) (w w1 : ResponseWriter)
    (r : Request) (holeID : String) (userID : Int)
    (hpath : r.URL.Path = "/" ++ holeID)
    (hid : g.printHeader w r 200 = (w1, userID)) :
    ((∃ wr v, hole g db w r = .panicked wr v)
        ↔ userID ≠ 0 ∧ (fatal (db.QueryRow .latestLang userID holeID)
            ∨ fatal (db.QueryRow .allCode userID holeID)))
      ∧ (userID ≠ 0 → fatal (db.QueryRow .latestLang userID holeID) →
          ∀ db2 : DB, db2.QueryRow .latestLang userID holeID
              = db.QueryRow .latestLang userID holeID →
            hole g db2 w r = hole g db w r)
      ∧ (userID ≠ 0 → db.QueryRow .latestLang userID holeID = .error .ErrNoRows →
          ¬ fatal (db.QueryRow .allCode userID holeID) →
          hole g db w r
            = .returned ⟨w1.body ++ head g ++ fragment (db.QueryRow .allCode userID holeID)
                ++ body (lookup g holeID) ++ roster g ++ "</div>"⟩)
      ∧ (userID ≠ 0 → ¬ fatal (db.QueryRow .latestLang userID holeID) →
          db.QueryRow .allCode userID holeID = .error .ErrNoRows →
          hole g db w r
            = .returned ⟨w1.body ++ head g ++ fragment (db.QueryRow .latestLang userID holeID)
                ++ body (lookup g holeID) ++ roster g ++ "</div>"⟩) := by
  have hs := sliceFrom1_of_path r holeID hpath
  refine ⟨hole_panicked_iff g db w w1 r holeID userID hs hid, ?_, ?_, ?_⟩
  · rintro hu ⟨msg, hm⟩ db2 h2
    rw [hole_first_fatal g db w w1 r holeID userID msg hs hid hu hm,
      hole_first_fatal g db2 w w1 r holeID userID msg hs hid hu (h2.trans hm)]
  · intro hu h1 h2
    have n1 : ¬ fatal (db.QueryRow .latestLang userID holeID) := by
      rw [h1]; rintro ⟨m, hm⟩; cases hm
    rw [hole_authenticated g db w w1 r holeID userID hs hid hu n1 h2, h1]
    apply congrArg Outcome.returned
    apply congrArg ResponseWriter.mk
    apply String.ext
    simp [fragment, String.data_append]
  · intro hu h1 h2
    have n2 : ¬ fatal (db.QueryRow .allCode userID holeID) := by
      rw [h2]; rintro ⟨m, hm⟩; cases hm
    rw [hole_authenticated g db w w1 r holeID userID hs hid hu h1 n2, h2]
    apply congrArg Outcome.returned
    apply congrArg ResponseWriter.mk
    apply String.ext
    simp [fragment, String.data_append]

/-- C8: whenever the handler returns, whatever the request, the user and the
store, its output ends with `<div id=tabs>`, then one entry
`<a href=#ID title="NAME">not tried</a>` per language of `langs` in the order
of `langs`, then `</div>`; these last bytes depend on `langs` alone. -/
theorem hole_roster_complete (g : Globals) (db : DB) (w out : ResponseWriter) (r : Request)
    (hret : hole g db w r = .returned out) :
    ∃ pre, out.body = pre ++ "<div id=tabs>"
      ++ String.join (g.langs.map
          (fun lang => "<a href=#" ++ lang.ID ++ " title=\"" ++ lang.Name ++ "\">not tried</a>"))
      ++ "</div>" := by
  obtain ⟨holeID, w2, rfl⟩ := hole_returned_finish g db w out r hret
  refine ⟨w2.body ++ "><h1>" ++ (lookup g holeID).Name ++ "</h1><p>"
    ++ (lookup g holeID).Preamble ++ "<button>Run</button>", ?_⟩
  have er : roster g = String.join (g.langs.map
      (fun lang => "<a href=#" ++ lang.ID ++ " title=\"" ++ lang.Name ++ "\">not tried</a>")) :=
    rfl
  rw [finish_body, body_split, er]
  simp only [String.append_assoc]

/-- C9: for a puzzle identifier that is not a key of `holeByID` the lookup is no
failure: the handler returns unless a read fails for an authenticated caller
(for an anonymous caller it always returns), and whenever it returns the
output is the head, the bytes of the authentication gate, then exactly
`><h1></h1><p><button>Run</button><div id=tabs>`, the roster and `</div>`. -/
theorem hole_unknown_puzzle (g : Globals) (db : DB) (w w1 : ResponseWriter)
    (r : Request) (holeID : String) (userID : Int)
    (hpath : r.URL.Path = "/" ++ holeID)
    (hid : g.printHeader w r 200 = (w1, userID))
    (hunknown : g.holeByID holeID = none) :
    ((∃ out, hole g db w r = .returned out)
        ↔ (userID = 0 ∨ (¬ fatal (db.QueryRow .latestLang userID holeID)
            ∧ ¬ fatal (db.QueryRow .allCode userID holeID))))
      ∧ (∀ out, hole g db w r = .returned out →
          ∃ gate, out.body = w1.body ++ head g ++ gate
            ++ "><h1></h1><p><button>Run</button><div id=tabs>" ++ roster g ++ "</div>") := by
  have hs := sliceFrom1_of_path r holeID hpath
  have hl : body (lookup g holeID) = "><h1></h1><p><button>Run</button><div id=tabs>" := by
    simp only [lookup, hunknown, Option.getD_none]
    decide
  constructor
  · constructor
    · rintro ⟨out, hret⟩
      by_cases hu : userID = 0
      · exact Or.inl hu
      · exact Or.inr (hole_returned_not_fatal g db w w1 out r holeID userID hs hid hu hret)
    · rintro (hu | ⟨h1, h2⟩)
      · subst hu
        exact ⟨_, hole_anonymous g db w w1 r holeID hs hid⟩
      · by_cases hu : userID = 0
        · subst hu
          exact ⟨_, hole_anonymous g db w w1 r holeID hs hid⟩
        · exact ⟨_, hole_authenticated g db w w1 r holeID userID hs hid hu h1 h2⟩
  · intro out hret
    by_cases hu : userID = 0
    · subst hu
      rw [hole_anonymous g db w w1 r holeID hs hid] at hret
      cases hret
      exact ⟨loginPrompt, by rw [hl]⟩
    · obtain ⟨h1, h2⟩ := hole_returned_not_fatal g db w w1 out r holeID userID hs hid hu hret
      rw [hole_authenticated g db w w1 r holeID userID hs hid hu h1 h2] at hret
      cases hret
      refine ⟨fragment (db.QueryRow .latestLang userID holeID)
        ++ fragment (db.QueryRow .allCode userID holeID), ?_⟩
      rw [hl]
      simp only [String.append_assoc]

/-- C10: whenever the handler returns for an authenticated caller, its output is
exactly the head, the fragment of the first read, the fragment of the second
read, the body, the roster and the closing tag, in this order; the head ends
with `<main id=hole` and the body begins with the `>` that ends that tag, so
both fragments lie inside the tag, the latest-language fragment first. -/
theorem hole_emission_order (g : Globals) (db : DB) (w w1 out : ResponseWriter)
    (r : Request) (holeID : String) (userID : Int)
    (hpath : r.URL.Path = "/" ++ holeID)
    (hid : g.printHeader w r 200 = (w1, userID)) (hauth : userID ≠ 0)
    (hret : hole g db w r = .returned out) :
    out.body = w1.body ++ head g
        ++ fragment (db.QueryRow .latestLang userID holeID)
        ++ fragment (db.QueryRow .allCode userID holeID)
        ++ body (lookup g holeID) ++ roster g ++ "</div>"
      ∧ (∃ pre, head g = pre ++ "<main id=hole")
      ∧ (∃ rest, body (lookup g holeID) = ">" ++ rest) := by
  have hs := sliceFrom1_of_path r holeID hpath
  obtain ⟨h1, h2⟩ := hole_returned_not_fatal g db w w1 out r holeID userID hs hid hauth hret
  rw [hole_authenticated g db w w1 r holeID userID hs hid hauth h1 h2] at hret
  cases hret
  refine ⟨rfl, head_ends_with_main g, ?_⟩
  refine ⟨"<h1>" ++ (lookup g holeID).Name ++ "</h1><p>" ++ (lookup g holeID).Preamble
    ++ "<button>Run</button><div id=tabs>", ?_⟩
  have e : "><h1>" = ">" ++ "<h1>" := by decide
  unfold body
  rw [e]
  simp only [String.append_assoc]

/-! ## Concrete instances -/

/-- The theorem for C2 at user 1, puzzle `fizzbuzz` and `exampleSolutions`. -/
theorem hole_codeFragment_witness :
    fizzbuzzRequest.URL.Path = "/" ++ "fizzbuzz"
      ∧ (exampleGlobals 1).printHeader emptyResponse fizzbuzzRequest 200 = (emptyResponse, 1)
      ∧ (1 : Int) ≠ 0
      ∧ hole (exampleGlobals 1) (postgres exampleSolutions) emptyResponse fizzbuzzRequest
        = .returned ⟨emptyResponse.body ++ head (exampleGlobals 1)
            ++ fragment ((postgres exampleSolutions).QueryRow .latestLang 1 "fizzbuzz")
            ++ String.join ((exampleSolutions.filter
                (fun s => s.user_id = 1 ∧ s.hole = "fizzbuzz")).map
                (fun s => " data-" ++ s.lang ++ "=\"" ++ String.mk (esc s.code.data) ++ "\""))
            ++ body (lookup (exampleGlobals 1) "fizzbuzz") ++ roster (exampleGlobals 1)
            ++ "</div>"⟩ :=
  ⟨by decide, rfl, by decide,
    (hole_codeFragment (exampleGlobals 1) exampleSolutions emptyResponse emptyResponse
      fizzbuzzRequest "fizzbuzz" 1 (by decide) rfl (by decide)).1⟩

/-- The theorem for C3 at an anonymous request for `fizzbuzz`, comparing a store
that holds `exampleSolutions` with a store on which every read fails. -/
theorem hole_anonymous_ignores_store_witness :
    fizzbuzzRequest.URL.Path = "/" ++ "fizzbuzz"
      ∧ (exampleGlobals 0).printHeader emptyResponse fizzbuzzRequest 200 = (emptyResponse, 0)
      ∧ hole (exampleGlobals 0) (postgres exampleSolutions) emptyResponse fizzbuzzRequest
        = hole (exampleGlobals 0) (unreachable "connection refused") emptyResponse
            fizzbuzzRequest :=
  ⟨by decide, rfl,
    (hole_anonymous_ignores_store (exampleGlobals 0) (postgres exampleSolutions)
      (unreachable "connection refused") emptyResponse emptyResponse fizzbuzzRequest
      "fizzbuzz" (by decide) rfl).1⟩

/-- The theorem for C4 at user 3, who has no solution in `exampleSolutions`. -/
theorem hole_no_solutions_witness :
    fizzbuzzRequest.URL.Path = "/" ++ "fizzbuzz"
      ∧ (exampleGlobals 3).printHeader emptyResponse fizzbuzzRequest 200 = (emptyResponse, 3)
      ∧ (3 : Int) ≠ 0
      ∧ (∀ s ∈ exampleSolutions, ¬ (s.user_id = 3 ∧ s.hole = "fizzbuzz"))
      ∧ hole (exampleGlobals 3) (postgres exampleSolutions) emptyResponse fizzbuzzRequest
        = .returned ⟨emptyResponse.body ++ head (exampleGlobals 3) ++ "><h1>"
            ++ (lookup (exampleGlobals 3) "fizzbuzz").Name ++ "</h1><p>"
            ++ (lookup (exampleGlobals 3) "fizzbuzz").Preamble
            ++ "<button>Run</button><div id=tabs>"
            ++ roster (exampleGlobals 3) ++ "</div>"⟩ :=
  ⟨by decide, rfl, by decide, by decide,
    (hole_no_solutions (exampleGlobals 3) exampleSolutions emptyResponse emptyResponse
      fizzbuzzRequest "fizzbuzz" 3 (by decide) rfl (by decide) (by decide)).2.2.1⟩

/-- The theorem for C5 at user 1 and the example configuration. -/
theorem hole_fizzbuzz_example_witness :
    fizzbuzzRequest.URL.Path = "/fizzbuzz"
      ∧ (exampleGlobals 1).printHeader emptyResponse fizzbuzzRequest 200 = (emptyResponse, 1)
      ∧ (1 : Int) ≠ 0
      ∧ (exampleGlobals 1).holeByID "fizzbuzz"
        = some (Hole.mk "FizzBuzz" "Print the numbers from 1 to 100.")
      ∧ hole (exampleGlobals 1)
          (postgres [{ user_id := 1, hole := "fizzbuzz", lang := "go",
                       code := "x := \"a\\\"b\"", success := true, timestamp := 1 }])
          emptyResponse fizzbuzzRequest
        = .returned ⟨emptyResponse.body ++ head (exampleGlobals 1) ++ " data-lang=go"
            ++ " data-go=\"x := &#34;a\\&#34;b&#34;\""
            ++ "><h1>FizzBuzz</h1>" ++ "<p>" ++ "Print the numbers from 1 to 100."
            ++ "<button>Run</button><div id=tabs>" ++ roster (exampleGlobals 1)
            ++ "</div>"⟩ :=
  ⟨rfl, rfl, by decide, by decide,
    (hole_fizzbuzz_example (exampleGlobals 1) emptyResponse emptyResponse fizzbuzzRequest 1
      "Print the numbers from 1 to 100." 1 rfl rfl (by decide) (by decide)).1⟩

/-- The theorem for C6 at user 1 and a store whose second read fails: the
handler panics with the head in the response stream. -/
theorem hole_store_failure_witness :
    fizzbuzzRequest.URL.Path = "/" ++ "fizzbuzz"
      ∧ (exampleGlobals 1).printHeader emptyResponse fizzbuzzRequest 200 = (emptyResponse, 1)
      ∧ (1 : Int) ≠ 0
      ∧ ¬ fatal (secondReadFails.QueryRow .latestLang 1 "fizzbuzz")
      ∧ secondReadFails.QueryRow .allCode 1 "fizzbuzz" = .error (.other "connection reset")
      ∧ hole (exampleGlobals 1) secondReadFails emptyResponse fizzbuzzRequest
        = .panicked ⟨emptyResponse.body ++ head (exampleGlobals 1)
            ++ fragment (secondReadFails.QueryRow .latestLang 1 "fizzbuzz")⟩
            (.err (.other "connection reset")) :=
  ⟨by decide, rfl, by decide, by decide, rfl,
    (hole_store_failure (exampleGlobals 1) secondReadFails emptyResponse emptyResponse
      fizzbuzzRequest "fizzbuzz" 1 (by decide) rfl (by decide)).2 (by decide)
      "connection reset" rfl⟩

/-- The theorem for C7 at user 1 and a store whose second read fails. -/
theorem hole_panics_iff_witness :
    fizzbuzzRequest.URL.Path = "/" ++ "fizzbuzz"
      ∧ (exampleGlobals 1).printHeader emptyResponse fizzbuzzRequest 200 = (emptyResponse, 1)
      ∧ ((∃ wr v, hole (exampleGlobals 1) secondReadFails emptyResponse fizzbuzzRequest
            = .panicked wr v)
        ↔ (1 : Int) ≠ 0 ∧ (fatal (secondReadFails.QueryRow .latestLang 1 "fizzbuzz")
            ∨ fatal (secondReadFails.QueryRow .allCode 1 "fizzbuzz"))) :=
  ⟨by decide, rfl,
    (hole_panics_iff (exampleGlobals 1) secondReadFails emptyResponse emptyResponse
      fizzbuzzRequest "fizzbuzz" 1 (by decide) rfl).1⟩

/-- The theorem for C8 at an anonymous request for `fizzbuzz`. -/
theorem hole_roster_complete_witness :
    hole (exampleGlobals 0) (unreachable "connection refused") emptyResponse fizzbuzzRequest
        = .returned exampleAnonymousPage
      ∧ ∃ pre, exampleAnonymousPage.body = pre ++ "<div id=tabs>"
          ++ String.join ((exampleGlobals 0).langs.map
              (fun lang => "<a href=#" ++ lang.ID ++ " title=\"" ++ lang.Name
                ++ "\">not tried</a>"))
          ++ "</div>" :=
  have hret : hole (exampleGlobals 0) (unreachable "connection refused") emptyResponse
      fizzbuzzRequest = .returned exampleAnonymousPage := by
    set_option maxRecDepth 100000 in
    rfl
  ⟨hret, hole_roster_complete (exampleGlobals 0) (unreachable "connection refused")
    emptyResponse exampleAnonymousPage fizzbuzzRequest hret⟩

/-- The theorem for C9 at an anonymous request for the unknown puzzle `nope`. -/
theorem hole_unknown_puzzle_witness :
    unknownRequest.URL.Path = "/" ++ "nope"
      ∧ (exampleGlobals 0).printHeader emptyResponse unknownRequest 200 = (emptyResponse, 0)
      ∧ (exampleGlobals 0).holeByID "nope" = none
      ∧ hole (exampleGlobals 0) (postgres exampleSolutions) emptyResponse unknownRequest
        = .returned exampleUnknownPage
      ∧ ∃ gate, exampleUnknownPage.body = emptyResponse.body ++ head (exampleGlobals 0) ++ gate
          ++ "><h1></h1><p><button>Run</button><div id=tabs>" ++ roster (exampleGlobals 0)
          ++ "</div>" :=
  have hret : hole (exampleGlobals 0) (postgres exampleSolutions) emptyResponse
      unknownRequest = .returned exampleUnknownPage := by
    set_option maxRecDepth 100000 in
    rfl
  ⟨by decide, rfl, by decide, hret,
    (hole_unknown_puzzle (exampleGlobals 0) (postgres exampleSolutions) emptyResponse
      emptyResponse unknownRequest "nope" 0 (by decide) rfl (by decide)).2
      exampleUnknownPage hret⟩

/-- The theorem for C10 at user 1, puzzle `fizzbuzz` and `exampleSolutions`. -/
theorem hole_emission_order_witness :
    fizzbuzzRequest.URL.Path = "/" ++ "fizzbuzz"
      ∧ (exampleGlobals 1).printHeader emptyResponse fizzbuzzRequest 200 = (emptyResponse, 1)
      ∧ (1 : Int) ≠ 0
      ∧ hole (exampleGlobals 1) (postgres exampleSolutions) emptyResponse fizzbuzzRequest
        = .returned exampleUserPage
      ∧ exampleUserPage.body = emptyResponse.body ++ head (exampleGlobals 1)
          ++ fragment ((postgres exampleSolutions).QueryRow .latestLang 1 "fizzbuzz")
          ++ fragment ((postgres exampleSolutions).QueryRow .allCode 1 "fizzbuzz")
          ++ body (lookup (exampleGlobals 1) "fizzbuzz") ++ roster (exampleGlobals 1)
          ++ "</div>" :=
  have hret : hole (exampleGlobals 1) (postgres exampleSolutions) emptyResponse
      fizzbuzzRequest = .returned exampleUserPage := by
    set_option maxRecDepth 100000 in
    rfl
  ⟨by decide, rfl, by decide, hret,
    (hole_emission_order (exampleGlobals 1) (postgres exampleSolutions) emptyResponse
      emptyResponse exampleUserPage fizzbuzzRequest "fizzbuzz" 1 (by decide) rfl (by decide)
      hret).1⟩

end Routes
